import Mathlib

/-! Verification of the Jarvis AI trading assistant core
    (risk engine, alpha signal, paper execution, bot entry/exit handlers).
    Real-valued quantities from the Python source are modelled as real numbers. -/

noncomputable section

/-! Configuration constants from config.py (class Config). -/

def RISK_PER_TRADE_PERCENT : ℝ := 0.005

def MAX_DAILY_DRAWDOWN_PERCENT : ℝ := 0.02

def MAX_CONSECUTIVE_LOSSES : ℕ := 3

def MAX_LEVERAGE_CAP : ℝ := 5.0

def HOLDING_HORIZON_CANDLES : ℝ := 240

def MAX_SPREAD_THRESHOLD : ℝ := 0.001

def STOP_LOSS_M_FACTOR : ℝ := 2.0

def MAX_HOLD_DURATION_CANDLES : ℝ := 60

/-! RiskEngine state, from src/risk.py (RiskEngine.__init__). -/

structure RiskEngineState where
  daily_pnl : ℝ
  consecutive_losses : ℕ
  is_active : Bool

/-- Initial risk state: RiskEngine.__init__ sets daily_pnl = 0.0,
    consecutive_losses = 0, is_active = True. -/
def initRisk : RiskEngineState := ⟨0, 0, true⟩

/-- RiskEngine.update_pnl_state: adds trade_pnl to daily_pnl; increments
    consecutive_losses when is_loss, otherwise resets it to 0. -/
def update_pnl_state (s : RiskEngineState) (trade_pnl : ℝ) (is_loss : Bool) : RiskEngineState :=
  { s with
    daily_pnl := s.daily_pnl + trade_pnl
    consecutive_losses := if is_loss then s.consecutive_losses + 1 else 0 }

/-- RiskEngine.check_can_trade: returns False if the agent is locked out
    (is_active false), then if the loss streak reached the limit, then if the
    spread exceeds the threshold, then if market depth is unhealthy; else True.
    The checks appear in exactly the source order. -/
def check_can_trade (s : RiskEngineState) (spread : ℝ)
    (market_depth_healthy : Bool) : Bool :=
  if !s.is_active then false
  else if s.consecutive_losses ≥ MAX_CONSECUTIVE_LOSSES then false
  else if spread > MAX_SPREAD_THRESHOLD then false
  else if !market_depth_healthy then false
  else true

/-- RiskEngine.check_daily_drawdown: computes the relative drawdown and, when
    it breaches the limit, clears is_active and returns False; otherwise
    returns True leaving the state unchanged. Returns the updated state as
    the second component. -/
def check_daily_drawdown (s : RiskEngineState) (equity start_equity : ℝ) :
    Bool × RiskEngineState :=
  let current_dd := (equity - start_equity) / start_equity
  if current_dd ≤ -MAX_DAILY_DRAWDOWN_PERCENT then
    (false, { s with is_active := false })
  else
    (true, s)

/-- RiskEngine.calculate_position_size: volatility-budget sizing.
    Notional = (0.005 * equity) / (2 * sigma * sqrt(H)); leverage is capped by
    min(MAX_LEVERAGE_CAP, 1/sigma); returns (quantity, leverage_used). -/
def calculate_position_size (equity volatility mid_price : ℝ) : ℝ × ℝ :=
  let risk_amt := RISK_PER_TRADE_PERCENT * equity
  let sqrt_h := Real.sqrt HOLDING_HORIZON_CANDLES
  let worst_case_pct := 2.0 * volatility * sqrt_h
  if worst_case_pct = 0 then (0.0, 0.0)
  else
    let notional_size_usd := risk_amt / worst_case_pct
    let cap1 := MAX_LEVERAGE_CAP
    let cap2 := if volatility > 0 then 1.0 / volatility else 5.0
    let final_leverage_cap := min cap1 cap2
    let max_notional_lev := equity * final_leverage_cap
    let final_position_usd := min notional_size_usd max_notional_lev
    (final_position_usd / mid_price, final_position_usd / equity)

/-- RiskEngine.calculate_position_size_with_spread: applies the additional
    spread cap 0.5/spread (when spread > 0) on top of calculate_position_size,
    resizing the quantity to equity * cap / mid_price when the cap binds. -/
def calculate_position_size_with_spread (equity volatility mid_price spread : ℝ) : ℝ × ℝ :=
  let ql := calculate_position_size equity volatility mid_price
  if spread > 0 then
    let spread_cap := 0.5 / spread
    if ql.2 > spread_cap then
      ((equity * spread_cap) / mid_price, spread_cap)
    else ql
  else ql

/-- RiskEngine.get_stop_loss_price: move = m * sigma * sqrt(H); direction 1
    (long) gives entry_price * (1 - move), otherwise entry_price * (1 + move). -/
def get_stop_loss_price (entry_price : ℝ) (direction : ℤ) (volatility : ℝ) : ℝ :=
  let sqrt_h := Real.sqrt HOLDING_HORIZON_CANDLES
  let move_pct := STOP_LOSS_M_FACTOR * volatility * sqrt_h
  if direction = 1 then entry_price * (1 - move_pct)
  else entry_price * (1 + move_pct)

/-- AlphaEngine.get_direction_score from src/alpha.py:
    tanh(0.5 * book_imbalance + 0.5 * flow_imbalance). -/
def get_direction_score (book_imbalance flow_imbalance : ℝ) : ℝ :=
  Real.tanh (0.5 * book_imbalance + 0.5 * flow_imbalance)

/-! Paper execution engine, from src/paper_execution.py. -/

structure PaperPosition where
  amount : ℝ
  entry_price : ℝ
  side : String

structure PaperState where
  equity : ℝ
  position : Option PaperPosition

/-- PaperExecutionEngine.__init__ with the default initial_equity = 10000.0
    used by the bot, and no open position. -/
def initPaper : PaperState := ⟨10000, none⟩

/-- PaperExecutionEngine.place_limit_order: fills immediately at the given
    price. With an open position of a different side it closes it, adding
    exit_val - entry_val (position side "long") or entry_val - exit_val
    (otherwise) to equity; with a same-side position it ignores the order and
    returns None; with no position it opens one at the fill price.
    First component: the order id status (none models Python None). -/
def place_limit_order (s : PaperState) (side : String) (amount price : ℝ) :
    Option String × PaperState :=
  let fill_price := price
  match s.position with
  | some pos =>
      if pos.side ≠ side then
        let entry_val := pos.entry_price * pos.amount
        let exit_val := fill_price * amount
        let pnl := if pos.side = "long" then exit_val - entry_val else entry_val - exit_val
        (some "closed", { equity := s.equity + pnl, position := none })
      else
        (none, s)
  | none =>
      (some "open", { s with position := some ⟨amount, fill_price, side⟩ })

/-! Bot decision records and the entry/exit handlers, from src/bot.py. -/

structure Decision where
  dtype : String
  reason : String
deriving DecidableEq

/-- Python exception raised when a call does not match the callee signature. -/
inductive PyErr where
  | typeError
deriving DecidableEq

/-- Declared positional parameter count of RiskEngine.calculate_position_size
    (self excluded): equity, volatility, mid_price. -/
def calculate_position_size_paramcount : ℕ := 3

/-- Python call semantics for RiskEngine.calculate_position_size: the call
    binds the positional arguments to the declared parameters and raises
    TypeError when the argument count differs from the parameter count. -/
def call_calculate_position_size (args : List ℝ) : Except PyErr (ℝ × ℝ) :=
  if h : args.length = calculate_position_size_paramcount then
    Except.ok (calculate_position_size
      (args.get ⟨0, by simp [calculate_position_size_paramcount] at h; omega⟩)
      (args.get ⟨1, by simp [calculate_position_size_paramcount] at h; omega⟩)
      (args.get ⟨2, by simp [calculate_position_size_paramcount] at h; omega⟩))
  else
    Except.error PyErr.typeError

/-- Result of one run of TradingBot._handle_entry: the decision records
    emitted, whether an order was placed, the resulting execution and risk
    states, whether entry_time was set, and whether an uncaught exception
    propagated to the top-level handler in TradingBot.run (raised = true;
    in that case the cycle aborts with the partial effects recorded so far). -/
structure EntryEffects where
  records : List Decision
  order_placed : Bool
  exec : PaperState
  risk : RiskEngineState
  entry_time_set : Bool
  raised : Bool

/-- TradingBot._handle_entry: weak-signal skip below the 0.4 threshold; risk
    check via check_can_trade with the logging reason recomputed (spread first,
    then loss streak, defaulting to RISK_CONSTRAINT); then the sizing call,
    written in the source as calculate_position_size(equity, volatility,
    mid_price, spread) with four positional arguments; then the zero-size skip,
    the spread-crossing fill and the order placement. -/
def handle_entry (score volatility spread mid_price equity : ℝ)
    (risk : RiskEngineState) (exec : PaperState) : EntryEffects :=
  if |score| < 0.4 then
    ⟨[⟨"TRADE_SKIPPED", "WEAK_SIGNAL"⟩], false, exec, risk, false, false⟩
  else
    let direction_str := if score > 0 then "buy" else "sell"
    let can_trade := check_can_trade risk spread true
    if !can_trade then
      let reason :=
        if spread > MAX_SPREAD_THRESHOLD then "SPREAD_TOO_HIGH"
        else if risk.consecutive_losses ≥ MAX_CONSECUTIVE_LOSSES then "MAX_CONSECUTIVE_LOSSES"
        else "RISK_CONSTRAINT"
      ⟨[⟨"TRADE_SKIPPED", reason⟩], false, exec, risk, false, false⟩
    else
      match call_calculate_position_size [equity, volatility, mid_price, spread] with
      | Except.error _ => ⟨[], false, exec, risk, false, true⟩
      | Except.ok ql =>
          if ql.1 = 0 then
            ⟨[⟨"TRADE_SKIPPED", "ZERO_SIZE_CALC (High Vol?)"⟩], false, exec, risk, false, false⟩
          else
            let fill_price := if direction_str = "buy" then mid_price * (1 + spread / 2)
              else mid_price * (1 - spread / 2)
            let placed := place_limit_order exec direction_str ql.1 fill_price
            match placed.1 with
            | some _ =>
                ⟨[⟨"TRADE_EXECUTED",
                    "ENTRY_" ++ (if direction_str = "buy" then "BUY" else "SELL")⟩],
                  true, placed.2, risk, true, false⟩
            | none =>
                ⟨[⟨"TRADE_SKIPPED", "ORDER_SUBMISSION_FAILED"⟩],
                  false, placed.2, risk, false, false⟩

/-- Position snapshot as returned by PaperExecutionEngine.get_position and
    consumed by TradingBot._handle_position. -/
structure PositionInfo where
  amount : ℝ
  entryPrice : ℝ
  side : String

/-- TradingBot._handle_position: evaluates the three exit conditions in source
    order — signal decay, volatility stop, time stop — with each triggering
    condition overwriting should_exit and exit_reason; on exit it crosses the
    spread, places the closing order, emits TRADE_EXECUTED with reason
    EXIT_ followed by the final exit_reason, and updates the risk PnL state
    with the realized PnL. has_entry_time models the truthiness of
    self.entry_time and duration_min the elapsed minutes since entry.
    Returns (records, risk state, execution state, exited flag). -/
def handle_position (pos : PositionInfo) (score volatility mid_price spread : ℝ)
    (has_entry_time : Bool) (duration_min : ℝ)
    (risk : RiskEngineState) (exec : PaperState) :
    List Decision × RiskEngineState × PaperState × Bool :=
  let side := pos.side
  let r1 : Bool × String :=
    if side = "long" ∧ score < -0.1 then (true, "SIGNAL_REVERSAL")
    else if side = "short" ∧ score > 0.1 then (true, "SIGNAL_REVERSAL")
    else (false, "")
  let entry_price := pos.entryPrice
  let pnl_pct := if side = "long" then (mid_price - entry_price) / entry_price
    else (entry_price - mid_price) / entry_price
  let stop_price := get_stop_loss_price entry_price (if side = "long" then 1 else -1) volatility
  let stop_hit : Prop :=
    (side = "long" ∧ mid_price < stop_price) ∨ (side = "short" ∧ mid_price > stop_price)
  let r2 := if stop_hit then (true, "VOLATILITY_STOP") else r1
  let r3 :=
    if has_entry_time ∧ duration_min > MAX_HOLD_DURATION_CANDLES ∧ pnl_pct ≤ 0 then
      (true, "TIME_STOP")
    else r2
  if r3.1 then
    let close_side := if side = "long" then "sell" else "buy"
    let fill_price := if close_side = "sell" then mid_price * (1 - spread / 2)
      else mid_price * (1 + spread / 2)
    let placed := place_limit_order exec close_side pos.amount fill_price
    let realized_pnl := if side = "long" then (fill_price - entry_price) * pos.amount
      else (entry_price - fill_price) * pos.amount
    let risk2 := update_pnl_state risk realized_pnl (if realized_pnl < 0 then true else false)
    ([⟨"TRADE_EXECUTED", "EXIT_" ++ r3.2⟩], risk2, placed.2, true)
  else
    ([], risk, exec, false)

/-- State-mutating view of the RiskEngine operations: update_pnl_state and
    check_daily_drawdown update the state; check_can_trade,
    calculate_position_size (with and without spread) and get_stop_loss_price
    read the state at most and leave it unchanged. -/
inductive RiskOp where
  | update_pnl (trade_pnl : ℝ) (is_loss : Bool)
  | can_trade (spread : ℝ) (market_depth_healthy : Bool)
  | drawdown (equity start_equity : ℝ)
  | size (equity volatility mid_price : ℝ)
  | size_spread (equity volatility mid_price spread : ℝ)
  | stop_loss (entry_price : ℝ) (direction : ℤ) (volatility : ℝ)

/-- Effect of one RiskEngine operation on the risk state. -/
def applyRiskOp (op : RiskOp) (s : RiskEngineState) : RiskEngineState :=
  match op with
  | RiskOp.update_pnl pnl is_loss => update_pnl_state s pnl is_loss
  | RiskOp.can_trade _ _ => s
  | RiskOp.drawdown equity start_equity => (check_daily_drawdown s equity start_equity).2
  | RiskOp.size _ _ _ => s
  | RiskOp.size_spread _ _ _ _ => s
  | RiskOp.stop_loss _ _ _ => s

/-! Helper lemmas: bounds for sqrt 240 and elementary facts about tanh. -/

lemma sqrt240_bounds : (15.49 : ℝ) < Real.sqrt 240 ∧ Real.sqrt 240 < 15.492 := by
  have hs : Real.sqrt 240 ^ 2 = 240 := Real.sq_sqrt (by norm_num)
  have hpos : 0 < Real.sqrt 240 := Real.sqrt_pos.mpr (by norm_num)
  constructor
  · nlinarith [hs, hpos, sq_nonneg (Real.sqrt 240 - 15.492)]
  · nlinarith [hs, hpos, sq_nonneg (Real.sqrt 240 - 15.49)]

lemma sqrt_H_pos : 0 < Real.sqrt HOLDING_HORIZON_CANDLES := by
  have : HOLDING_HORIZON_CANDLES = (240 : ℝ) := by norm_num [HOLDING_HORIZON_CANDLES]
  rw [this]
  exact Real.sqrt_pos.mpr (by norm_num)

lemma tanh_eq_one_sub (x : ℝ) : Real.tanh x = 1 - 2 / (Real.exp (2 * x) + 1) := by
  have hx : (0 : ℝ) < Real.exp x := Real.exp_pos x
  have h2 : Real.exp (2 * x) = Real.exp x * Real.exp x := by
    rw [two_mul, Real.exp_add]
  rw [Real.tanh_eq_sinh_div_cosh, Real.sinh_eq, Real.cosh_eq, Real.exp_neg, h2]
  have hden : Real.exp x + (Real.exp x)⁻¹ ≠ 0 := by positivity
  have hden2 : Real.exp x * Real.exp x + 1 ≠ 0 := by positivity
  field_simp
  ring

lemma tanh_lt_one (x : ℝ) : Real.tanh x < 1 := by
  rw [tanh_eq_one_sub]
  have : 0 < 2 / (Real.exp (2 * x) + 1) := by positivity
  linarith

lemma neg_one_lt_tanh (x : ℝ) : -1 < Real.tanh x := by
  rw [tanh_eq_one_sub]
  have h1 : (0 : ℝ) < Real.exp (2 * x) := Real.exp_pos _
  have h2 : 2 / (Real.exp (2 * x) + 1) < 2 := by
    rw [div_lt_iff₀ (by positivity)]
    nlinarith
  linarith

lemma tanh_le_tanh {x y : ℝ} (h : x ≤ y) : Real.tanh x ≤ Real.tanh y := by
  rw [tanh_eq_one_sub, tanh_eq_one_sub]
  have h1 : (0 : ℝ) < Real.exp (2 * x) + 1 := by positivity
  have h2 : Real.exp (2 * x) + 1 ≤ Real.exp (2 * y) + 1 := by
    have := Real.exp_le_exp.mpr (by linarith : 2 * x ≤ 2 * y)
    linarith
  have h3 : 2 / (Real.exp (2 * y) + 1) ≤ 2 / (Real.exp (2 * x) + 1) := by
    gcongr
  linarith

/-- C10: for all book and flow imbalances in the interval from -1 to 1, the
    signal score equals tanh(0.5 * book + 0.5 * flow), lies strictly between
    -1 and 1, and is monotonically non-decreasing in each argument when the
    other is held fixed. -/
theorem alpha_score_tanh_range_monotone (b f : ℝ)
    (hb1 : -1 ≤ b) (hb2 : b ≤ 1) (hf1 : -1 ≤ f) (hf2 : f ≤ 1) :
    get_direction_score b f = Real.tanh (0.5 * b + 0.5 * f) ∧
    -1 < get_direction_score b f ∧ get_direction_score b f < 1 ∧
    (∀ b2, b ≤ b2 → b2 ≤ 1 → get_direction_score b f ≤ get_direction_score b2 f) ∧
    (∀ f2, f ≤ f2 → f2 ≤ 1 → get_direction_score b f ≤ get_direction_score b f2) := by
  refine ⟨rfl, neg_one_lt_tanh _, tanh_lt_one _, ?_, ?_⟩
  · intro b2 hle _
    exact tanh_le_tanh (by linarith)
  · intro f2 hle _
    exact tanh_le_tanh (by linarith)

/-- Witness for C10 at book imbalance 0 and flow imbalance 0. -/
theorem alpha_score_tanh_range_monotone_witness :
    get_direction_score 0 0 = Real.tanh (0.5 * 0 + 0.5 * 0) ∧
    -1 < get_direction_score 0 0 ∧ get_direction_score 0 0 < 1 ∧
    (∀ b2, (0 : ℝ) ≤ b2 → b2 ≤ 1 → get_direction_score 0 0 ≤ get_direction_score b2 0) ∧
    (∀ f2, (0 : ℝ) ≤ f2 → f2 ≤ 1 → get_direction_score 0 0 ≤ get_direction_score 0 f2) :=
  alpha_score_tanh_range_monotone 0 0 (by norm_num) (by norm_num) (by norm_num) (by norm_num)

/-- C9: the stop price equals entry_price * (1 -+ 2 * sigma * sqrt 240) for
    long (direction 1) and short; for positive entry price and sigma the long
    stop is strictly below the entry and the short stop strictly above; at
    entry_price 100 and sigma 0.01 the long stop is within 0.01 of 69.01. -/
theorem stop_price_formula_bounds (entry_price sigma : ℝ)
    (hp : 0 < entry_price) (hs : 0 < sigma) :
    get_stop_loss_price entry_price 1 sigma
        = entry_price * (1 - 2 * sigma * Real.sqrt 240) ∧
    get_stop_loss_price entry_price (-1) sigma
        = entry_price * (1 + 2 * sigma * Real.sqrt 240) ∧
    get_stop_loss_price entry_price 1 sigma < entry_price ∧
    entry_price < get_stop_loss_price entry_price (-1) sigma ∧
    |get_stop_loss_price 100 1 (1 / 100) - 69.01| < 1 / 100 := by
  have h240 : Real.sqrt HOLDING_HORIZON_CANDLES = Real.sqrt 240 := by
    norm_num [HOLDING_HORIZON_CANDLES]
  have hlong : ∀ e s : ℝ, get_stop_loss_price e 1 s = e * (1 - 2 * s * Real.sqrt 240) := by
    intro e s
    norm_num [get_stop_loss_price, STOP_LOSS_M_FACTOR, h240]
  have hshort : ∀ e s : ℝ, get_stop_loss_price e (-1) s = e * (1 + 2 * s * Real.sqrt 240) := by
    intro e s
    norm_num [get_stop_loss_price, STOP_LOSS_M_FACTOR, h240]
  obtain ⟨hlb, hub⟩ := sqrt240_bounds
  have hsqpos : (0 : ℝ) < Real.sqrt 240 := by linarith
  refine ⟨hlong _ _, hshort _ _, ?_, ?_, ?_⟩
  · rw [hlong]
    nlinarith [mul_pos hp (mul_pos hs hsqpos)]
  · rw [hshort]
    nlinarith [mul_pos hp (mul_pos hs hsqpos)]
  · rw [hlong, abs_lt]
    constructor <;> nlinarith [hlb, hub]

/-- Witness for C9 at entry price 100 and sigma 0.01. -/
theorem stop_price_formula_bounds_witness :
    get_stop_loss_price 100 1 (1 / 100)
        = 100 * (1 - 2 * (1 / 100) * Real.sqrt 240) ∧
    get_stop_loss_price 100 (-1) (1 / 100)
        = 100 * (1 + 2 * (1 / 100) * Real.sqrt 240) ∧
    get_stop_loss_price 100 1 (1 / 100) < 100 ∧
    (100 : ℝ) < get_stop_loss_price 100 (-1) (1 / 100) ∧
    |get_stop_loss_price 100 1 (1 / 100) - 69.01| < 1 / 100 :=
  stop_price_formula_bounds 100 (1 / 100) (by norm_num) (by norm_num)

/-! Helper characterizations of calculate_position_size. -/

lemma calculate_position_size_eq (equity volatility mid_price : ℝ)
    (h : 2.0 * volatility * Real.sqrt HOLDING_HORIZON_CANDLES ≠ 0) :
    calculate_position_size equity volatility mid_price =
      (min (RISK_PER_TRADE_PERCENT * equity /
              (2.0 * volatility * Real.sqrt HOLDING_HORIZON_CANDLES))
           (equity * min MAX_LEVERAGE_CAP
              (if volatility > 0 then 1.0 / volatility else 5.0)) / mid_price,
       min (RISK_PER_TRADE_PERCENT * equity /
              (2.0 * volatility * Real.sqrt HOLDING_HORIZON_CANDLES))
           (equity * min MAX_LEVERAGE_CAP
              (if volatility > 0 then 1.0 / volatility else 5.0)) / equity) := by
  simp only [calculate_position_size]
  rw [if_neg h]

lemma calculate_position_size_zero_case (equity volatility mid_price : ℝ)
    (h : 2.0 * volatility * Real.sqrt HOLDING_HORIZON_CANDLES = 0) :
    calculate_position_size equity volatility mid_price = (0, 0) := by
  simp only [calculate_position_size]
  rw [if_pos h]
  norm_num

/-- C6 counterexample: with equity 1000, sigma -0.01 and mid price 100 the
    sizing returns a strictly negative quantity, so it does not return (0, 0)
    for strictly negative sigma. -/
theorem size_negative_sigma_counterexample :
    (calculate_position_size 1000 (-1 / 100) 100).1 < 0 ∧
    calculate_position_size 1000 (-1 / 100) 100 ≠ (0, 0) := by
  have h240 : Real.sqrt HOLDING_HORIZON_CANDLES = Real.sqrt 240 := by
    norm_num [HOLDING_HORIZON_CANDLES]
  obtain ⟨hlb, hub⟩ := sqrt240_bounds
  have hW : 2.0 * (-1 / 100 : ℝ) * Real.sqrt HOLDING_HORIZON_CANDLES < 0 := by
    rw [h240]
    nlinarith
  have heq2 : calculate_position_size 1000 (-1 / 100) 100 =
      (min (5 / (2.0 * (-1 / 100) * Real.sqrt HOLDING_HORIZON_CANDLES)) 5000 / 100,
       min (5 / (2.0 * (-1 / 100) * Real.sqrt HOLDING_HORIZON_CANDLES)) 5000 / 1000) := by
    rw [calculate_position_size_eq 1000 (-1 / 100) 100 (ne_of_lt hW)]
    norm_num [RISK_PER_TRADE_PERCENT, MAX_LEVERAGE_CAP]
  have hA : (5 : ℝ) / (2.0 * (-1 / 100) * Real.sqrt HOLDING_HORIZON_CANDLES) < 0 :=
    div_neg_of_pos_of_neg (by norm_num) hW
  have hmin : min ((5 : ℝ) / (2.0 * (-1 / 100) * Real.sqrt HOLDING_HORIZON_CANDLES)) 5000
      = 5 / (2.0 * (-1 / 100) * Real.sqrt HOLDING_HORIZON_CANDLES) :=
    min_eq_left (by linarith)
  have hqty : (calculate_position_size 1000 (-1 / 100) 100).1 < 0 := by
    rw [heq2]
    show min ((5 : ℝ) / (2.0 * (-1 / 100) * Real.sqrt HOLDING_HORIZON_CANDLES)) 5000 / 100 < 0
    rw [hmin]
    exact div_neg_of_neg_of_pos hA (by norm_num)
  refine ⟨hqty, fun h => ?_⟩
  rw [h] at hqty
  norm_num at hqty

/-- C6 amended: the sizing returns (0, 0) whenever sigma equals 0, for every
    equity, mid price and spread (both the base operation and the
    spread-capped variant). -/
theorem size_zero_sigma_amended (equity mid_price spread : ℝ) :
    calculate_position_size equity 0 mid_price = (0, 0) ∧
    calculate_position_size_with_spread equity 0 mid_price spread = (0, 0) := by
  have hz : 2.0 * (0 : ℝ) * Real.sqrt HOLDING_HORIZON_CANDLES = 0 := by ring
  have h1 := calculate_position_size_zero_case equity 0 mid_price hz
  refine ⟨h1, ?_⟩
  simp only [calculate_position_size_with_spread, h1]
  by_cases hs : spread > 0
  · rw [if_pos hs]
    have hnn : (0 : ℝ) ≤ 0.5 / spread := div_nonneg (by norm_num) hs.le
    rw [if_neg (by simpa using not_lt.mpr hnn)]
  · rw [if_neg hs]

lemma position_size_base (equity sigma mid_price : ℝ)
    (he : 0 < equity) (hs : 0 < sigma) (hm : 0 < mid_price) :
    0 ≤ (calculate_position_size equity sigma mid_price).1 ∧
    (calculate_position_size equity sigma mid_price).2
      ≤ min MAX_LEVERAGE_CAP (1 / sigma) := by
  have hsq : 0 < Real.sqrt HOLDING_HORIZON_CANDLES := sqrt_H_pos
  have hW : 0 < 2.0 * sigma * Real.sqrt HOLDING_HORIZON_CANDLES := by
    have : (0 : ℝ) < 2.0 * sigma := by nlinarith
    exact mul_pos this hsq
  have heq := calculate_position_size_eq equity sigma mid_price (ne_of_gt hW)
  have hif : (if sigma > 0 then 1.0 / sigma else 5.0) = 1 / sigma := by
    rw [if_pos hs]
    norm_num
  rw [heq, hif]
  have hN : 0 < RISK_PER_TRADE_PERCENT * equity /
      (2.0 * sigma * Real.sqrt HOLDING_HORIZON_CANDLES) := by
    apply div_pos _ hW
    have : (0 : ℝ) < RISK_PER_TRADE_PERCENT := by norm_num [RISK_PER_TRADE_PERCENT]
    exact mul_pos this he
  have hcap : 0 < min MAX_LEVERAGE_CAP (1 / sigma) := by
    apply lt_min
    · norm_num [MAX_LEVERAGE_CAP]
    · positivity
  constructor
  · show 0 ≤ min (RISK_PER_TRADE_PERCENT * equity /
        (2.0 * sigma * Real.sqrt HOLDING_HORIZON_CANDLES))
        (equity * min MAX_LEVERAGE_CAP (1 / sigma)) / mid_price
    apply div_nonneg _ hm.le
    exact le_min hN.le (mul_nonneg he.le hcap.le)
  · show min (RISK_PER_TRADE_PERCENT * equity /
        (2.0 * sigma * Real.sqrt HOLDING_HORIZON_CANDLES))
        (equity * min MAX_LEVERAGE_CAP (1 / sigma)) / equity
        ≤ min MAX_LEVERAGE_CAP (1 / sigma)
    rw [div_le_iff₀ he]
    exact (min_le_right _ _).trans (le_of_eq (mul_comm _ _))

/-- C1: for positive equity, sigma, price and spread, the spread-capped sizing
    operation (the spec size_position) returns a leverage of at most
    min(5, 1/sigma, 0.5/spread) and a non-negative quantity. -/
theorem size_with_spread_leverage_cap (equity sigma price spread : ℝ)
    (he : 0 < equity) (hs : 0 < sigma) (hp : 0 < price) (hsp : 0 < spread) :
    (calculate_position_size_with_spread equity sigma price spread).2
      ≤ min (5 : ℝ) (min (1 / sigma) (0.5 / spread)) ∧
    0 ≤ (calculate_position_size_with_spread equity sigma price spread).1 := by
  obtain ⟨hq, hl⟩ := position_size_base equity sigma price he hs hp
  have h5 : (calculate_position_size equity sigma price).2 ≤ 5 := by
    have h := hl.trans (min_le_left _ _)
    have h50 : MAX_LEVERAGE_CAP = (5 : ℝ) := by norm_num [MAX_LEVERAGE_CAP]
    rw [h50] at h
    exact h
  have h1s : (calculate_position_size equity sigma price).2 ≤ 1 / sigma :=
    hl.trans (min_le_right _ _)
  simp only [calculate_position_size_with_spread]
  rw [if_pos hsp]
  by_cases hcap : (calculate_position_size equity sigma price).2 > 0.5 / spread
  · rw [if_pos hcap]
    constructor
    · show (0.5 : ℝ) / spread ≤ min (5 : ℝ) (min (1 / sigma) (0.5 / spread))
      refine le_min (by linarith) (le_min (by linarith) le_rfl)
    · show 0 ≤ equity * (0.5 / spread) / price
      have hnn : (0 : ℝ) ≤ 0.5 / spread := div_nonneg (by norm_num) hsp.le
      exact div_nonneg (mul_nonneg he.le hnn) hp.le
  · rw [if_neg hcap]
    push_neg at hcap
    exact ⟨le_min h5 (le_min h1s hcap), hq⟩

/-- Witness for C1 at equity 1000, sigma 0.01, price 100 and spread 0.001. -/
theorem size_with_spread_leverage_cap_witness :
    (calculate_position_size_with_spread 1000 (1 / 100) 100 (1 / 1000)).2
      ≤ min (5 : ℝ) (min (1 / (1 / 100)) (0.5 / (1 / 1000))) ∧
    0 ≤ (calculate_position_size_with_spread 1000 (1 / 100) 100 (1 / 1000)).1 :=
  size_with_spread_leverage_cap 1000 (1 / 100) 100 (1 / 1000)
    (by norm_num) (by norm_num) (by norm_num) (by norm_num)

/-- C4 counterexample: the drawdown check at equity 975 of 1000 returns false
    and clears is_active, but a subsequent drawdown check at healthy equity
    (1000 of 1000) returns true, not false as claimed — the function never
    consults is_active. -/
theorem drawdown_healthy_recheck_counterexample :
    (check_daily_drawdown initRisk 975 1000).1 = false ∧
    (check_daily_drawdown initRisk 975 1000).2.is_active = false ∧
    (check_daily_drawdown (check_daily_drawdown initRisk 975 1000).2 1000 1000).1 = true := by
  have hc : ((975 : ℝ) - 1000) / 1000 ≤ -MAX_DAILY_DRAWDOWN_PERCENT := by
    norm_num [MAX_DAILY_DRAWDOWN_PERCENT]
  have h1 : check_daily_drawdown initRisk 975 1000
      = (false, { initRisk with is_active := false }) := by
    simp only [check_daily_drawdown]
    rw [if_pos hc]
  have hc2 : ¬ (((1000 : ℝ) - 1000) / 1000 ≤ -MAX_DAILY_DRAWDOWN_PERCENT) := by
    norm_num [MAX_DAILY_DRAWDOWN_PERCENT]
  have h2 : check_daily_drawdown { initRisk with is_active := false } 1000 1000
      = (true, { initRisk with is_active := false }) := by
    simp only [check_daily_drawdown]
    rw [if_neg hc2]
  refine ⟨by rw [h1], by rw [h1], by rw [h1, h2]⟩

/-- C4 amended: the drawdown check at equity 975 of 1000 (limit 0.02) returns
    false and clears is_active; no RiskEngine operation ever sets is_active
    back to true; a subsequent drawdown check with healthy equity returns true
    while is_active stays false (the lock is reported by the separate
    is_active flag consulted in run_cycle, not by the check return value). -/
theorem drawdown_latch_amended :
    (check_daily_drawdown initRisk 975 1000).1 = false ∧
    (check_daily_drawdown initRisk 975 1000).2.is_active = false ∧
    (∀ op : RiskOp, ∀ s : RiskEngineState, s.is_active = false →
        (applyRiskOp op s).is_active = false) ∧
    (check_daily_drawdown (check_daily_drawdown initRisk 975 1000).2 1000 1000).1 = true ∧
    (check_daily_drawdown (check_daily_drawdown initRisk 975 1000).2 1000 1000).2.is_active
      = false := by
  have hc : ((975 : ℝ) - 1000) / 1000 ≤ -MAX_DAILY_DRAWDOWN_PERCENT := by
    norm_num [MAX_DAILY_DRAWDOWN_PERCENT]
  have h1 : check_daily_drawdown initRisk 975 1000
      = (false, { initRisk with is_active := false }) := by
    simp only [check_daily_drawdown]
    rw [if_pos hc]
  have hc2 : ¬ (((1000 : ℝ) - 1000) / 1000 ≤ -MAX_DAILY_DRAWDOWN_PERCENT) := by
    norm_num [MAX_DAILY_DRAWDOWN_PERCENT]
  have h2 : check_daily_drawdown { initRisk with is_active := false } 1000 1000
      = (true, { initRisk with is_active := false }) := by
    simp only [check_daily_drawdown]
    rw [if_neg hc2]
  refine ⟨by rw [h1], by rw [h1], ?_, by rw [h1, h2], by rw [h1, h2]⟩
  intro op s h
  cases op with
  | update_pnl pnl il =>
      simpa [applyRiskOp, update_pnl_state] using h
  | can_trade sp mdh => exact h
  | drawdown e se =>
      simp only [applyRiskOp, check_daily_drawdown]
      split
      · rfl
      · exact h
  | size e v m => exact h
  | size_spread e v m sp => exact h
  | stop_loss e d v => exact h

/-- Witness for the amended C4: the latch is preserved by a PnL update applied
    to the latched state. -/
theorem drawdown_latch_amended_witness :
    (applyRiskOp (RiskOp.update_pnl 5 false)
        (check_daily_drawdown initRisk 975 1000).2).is_active = false :=
  drawdown_latch_amended.2.2.1 (RiskOp.update_pnl 5 false)
    (check_daily_drawdown initRisk 975 1000).2 drawdown_latch_amended.2.1

/-- C3 counterexample: with is_active true, a loss streak of 3 and spread
    0.002, both the loss-streak condition (second in the claimed order) and
    the spread condition (third) hold and the risk check fails, yet the
    decision record reason is SPREAD_TOO_HIGH rather than the first failing
    reason MAX_CONSECUTIVE_LOSSES. -/
theorem entry_reason_order_counterexample :
    check_can_trade ⟨0, 3, true⟩ (2 / 1000) true = false ∧
    (⟨0, 3, true⟩ : RiskEngineState).is_active = true ∧
    MAX_CONSECUTIVE_LOSSES ≤ (⟨0, 3, true⟩ : RiskEngineState).consecutive_losses ∧
    (2 / 1000 : ℝ) > MAX_SPREAD_THRESHOLD ∧
    (handle_entry (1 / 2) (1 / 100) (2 / 1000) 100 1000 ⟨0, 3, true⟩ initPaper).records
      = [⟨"TRADE_SKIPPED", "SPREAD_TOO_HIGH"⟩] := by
  have hct : check_can_trade ⟨0, 3, true⟩ (2 / 1000) true = false := by
    simp [check_can_trade, MAX_CONSECUTIVE_LOSSES]
  have habs : ¬ (|(1 / 2 : ℝ)| < 0.4) := by
    rw [abs_of_pos (by norm_num)]
    norm_num
  refine ⟨hct, rfl, by simp [MAX_CONSECUTIVE_LOSSES], by norm_num [MAX_SPREAD_THRESHOLD], ?_⟩
  simp only [handle_entry, hct]
  rw [if_neg habs]
  norm_num [MAX_SPREAD_THRESHOLD]

/-- C3 amended: check_can_trade evaluates is_active, then the loss streak,
    then the spread (source order) and returns true exactly when all pass;
    but when it fails with a strong signal, the decision record reason is
    recomputed in the entry handler with the spread condition first, then the
    loss streak, defaulting to RISK_CONSTRAINT (RISK_LOCKED is never emitted
    by this path), so with several failing conditions the reported reason is
    not the first failing one of the check order. -/
theorem entry_risk_reason_amended (rs : RiskEngineState)
    (spread score volatility mid_price equity : ℝ) (exec : PaperState)
    (hscore : 0.4 ≤ |score|) (hfail : check_can_trade rs spread true = false) :
    (handle_entry score volatility spread mid_price equity rs exec).records =
      [⟨"TRADE_SKIPPED",
        if spread > MAX_SPREAD_THRESHOLD then "SPREAD_TOO_HIGH"
        else if rs.consecutive_losses ≥ MAX_CONSECUTIVE_LOSSES then "MAX_CONSECUTIVE_LOSSES"
        else "RISK_CONSTRAINT"⟩] ∧
    (check_can_trade rs spread true = true ↔
      rs.is_active = true ∧ rs.consecutive_losses < MAX_CONSECUTIVE_LOSSES ∧
        spread ≤ MAX_SPREAD_THRESHOLD) := by
  constructor
  · simp only [handle_entry, hfail]
    rw [if_neg (not_lt.mpr hscore)]
    simp
  · simp only [check_can_trade]
    constructor
    · intro h
      by_cases h1 : rs.is_active
      · rw [if_neg (by simp [h1])] at h
        by_cases h2 : rs.consecutive_losses ≥ MAX_CONSECUTIVE_LOSSES
        · rw [if_pos h2] at h
          simp at h
        · rw [if_neg h2] at h
          by_cases h3 : spread > MAX_SPREAD_THRESHOLD
          · rw [if_pos h3] at h
            simp at h
          · exact ⟨by simpa using h1, lt_of_not_ge h2, le_of_not_gt h3⟩
      · rw [if_pos (by simp [h1])] at h
        simp at h
    · rintro ⟨h1, h2, h3⟩
      rw [if_neg (by simp [h1]), if_neg (not_le.mpr h2), if_neg (not_lt.mpr h3)]
      simp

/-- Witness for the amended C3 at the counterexample state: loss streak 3,
    spread 0.002, score 0.5. -/
theorem entry_risk_reason_amended_witness :
    (handle_entry (1 / 2) (1 / 100) (2 / 1000) 100 1000 ⟨0, 3, true⟩ initPaper).records =
      [⟨"TRADE_SKIPPED",
        if (2 / 1000 : ℝ) > MAX_SPREAD_THRESHOLD then "SPREAD_TOO_HIGH"
        else if (⟨0, 3, true⟩ : RiskEngineState).consecutive_losses ≥ MAX_CONSECUTIVE_LOSSES
          then "MAX_CONSECUTIVE_LOSSES"
        else "RISK_CONSTRAINT"⟩] ∧
    (check_can_trade ⟨0, 3, true⟩ (2 / 1000) true = true ↔
      (⟨0, 3, true⟩ : RiskEngineState).is_active = true ∧
        (⟨0, 3, true⟩ : RiskEngineState).consecutive_losses < MAX_CONSECUTIVE_LOSSES ∧
        (2 / 1000 : ℝ) ≤ MAX_SPREAD_THRESHOLD) :=
  entry_risk_reason_amended ⟨0, 3, true⟩ (2 / 1000) (1 / 2) (1 / 100) 100 1000 initPaper
    (by rw [abs_of_pos]
        · norm_num
        · norm_num)
    (by simp [check_can_trade, MAX_CONSECUTIVE_LOSSES])

/-- C2: whenever the score clears the 0.4 entry threshold and check_can_trade
    passes, the entry handler calls calculate_position_size with four
    positional arguments against its three declared parameters; the call
    raises TypeError, the cycle aborts through the top-level handler, and no
    record, order, risk-state change, position change or entry timestamp is
    produced — no entry can complete through this path. -/
theorem entry_sizing_call_type_error (score volatility spread mid_price equity : ℝ)
    (risk : RiskEngineState) (exec : PaperState)
    (hscore : 0.4 ≤ |score|) (hct : check_can_trade risk spread true = true) :
    (handle_entry score volatility spread mid_price equity risk exec).raised = true ∧
    (handle_entry score volatility spread mid_price equity risk exec).records = [] ∧
    (handle_entry score volatility spread mid_price equity risk exec).order_placed = false ∧
    (handle_entry score volatility spread mid_price equity risk exec).exec = exec ∧
    (handle_entry score volatility spread mid_price equity risk exec).risk = risk ∧
    (handle_entry score volatility spread mid_price equity risk exec).entry_time_set
      = false := by
  have hlen : call_calculate_position_size [equity, volatility, mid_price, spread]
      = Except.error PyErr.typeError := by
    simp [call_calculate_position_size, calculate_position_size_paramcount]
  simp only [handle_entry, hct, hlen]
  rw [if_neg (not_lt.mpr hscore)]
  simp

/-- Witness for C2 at score 0.5, volatility 0.01, spread 0.0001, mid price
    100, equity 10000 and the initial states. -/
theorem entry_sizing_call_type_error_witness :
    (handle_entry (1 / 2) (1 / 100) (1 / 10000) 100 10000 initRisk initPaper).raised = true ∧
    (handle_entry (1 / 2) (1 / 100) (1 / 10000) 100 10000 initRisk initPaper).records = [] ∧
    (handle_entry (1 / 2) (1 / 100) (1 / 10000) 100 10000 initRisk
        initPaper).order_placed = false ∧
    (handle_entry (1 / 2) (1 / 100) (1 / 10000) 100 10000 initRisk initPaper).exec
      = initPaper ∧
    (handle_entry (1 / 2) (1 / 100) (1 / 10000) 100 10000 initRisk initPaper).risk
      = initRisk ∧
    (handle_entry (1 / 2) (1 / 100) (1 / 10000) 100 10000 initRisk
        initPaper).entry_time_set = false :=
  entry_sizing_call_type_error (1 / 2) (1 / 100) (1 / 10000) 100 10000 initRisk initPaper
    (by have h : |(1 / 2 : ℝ)| = 1 / 2 := abs_of_pos (by norm_num)
        rw [h]
        norm_num)
    (by norm_num [check_can_trade, initRisk, MAX_CONSECUTIVE_LOSSES, MAX_SPREAD_THRESHOLD])

/-- C7 counterexample: with sigma = 0 and score 0.1 (below the 0.4 threshold)
    the cycle emits TRADE_SKIPPED/WEAK_SIGNAL, not a record with reason
    ZERO_SIZE_CALC — the weak-signal skip pre-empts the sizing step. -/
theorem zero_sigma_weak_signal_counterexample :
    (handle_entry (1 / 10) 0 (1 / 10000) 100 10000 initRisk initPaper).records
      = [⟨"TRADE_SKIPPED", "WEAK_SIGNAL"⟩] ∧
    (Decision.mk "TRADE_SKIPPED" "WEAK_SIGNAL").reason ≠ "ZERO_SIZE_CALC" := by
  constructor
  · simp only [handle_entry]
    rw [if_pos (by
      have h : |(1 / 10 : ℝ)| = 1 / 10 := abs_of_pos (by norm_num)
      rw [h]
      norm_num)]
  · simp

/-- C7 amended: with sigma = 0 at entry evaluation a record with reason
    ZERO_SIZE_CALC (or the source string with its suffix) is never emitted:
    below the 0.4 threshold the record is TRADE_SKIPPED/WEAK_SIGNAL; at or
    above it, when the risk check passes, the four-argument sizing call raises
    TypeError and the cycle aborts with no record; otherwise the
    risk-rejection record is emitted. -/
theorem zero_sigma_entry_amended (score spread mid_price equity : ℝ)
    (risk : RiskEngineState) (exec : PaperState) :
    (∀ rec ∈ (handle_entry score 0 spread mid_price equity risk exec).records,
        rec.reason ≠ "ZERO_SIZE_CALC" ∧ rec.reason ≠ "ZERO_SIZE_CALC (High Vol?)") ∧
    (|score| < 0.4 →
      (handle_entry score 0 spread mid_price equity risk exec).records
        = [⟨"TRADE_SKIPPED", "WEAK_SIGNAL"⟩]) ∧
    (0.4 ≤ |score| → check_can_trade risk spread true = true →
      (handle_entry score 0 spread mid_price equity risk exec).raised = true ∧
      (handle_entry score 0 spread mid_price equity risk exec).records = []) := by
  have hlen : call_calculate_position_size [equity, 0, mid_price, spread]
      = Except.error PyErr.typeError := by
    simp [call_calculate_position_size, calculate_position_size_paramcount]
  refine ⟨?_, ?_, ?_⟩
  · intro rec hrec
    by_cases hs : |score| < 0.4
    · simp only [handle_entry] at hrec
      rw [if_pos hs] at hrec
      simp at hrec
      subst hrec
      exact ⟨by simp, by simp⟩
    · by_cases hct : check_can_trade risk spread true = true
      · simp only [handle_entry, hct, hlen] at hrec
        rw [if_neg hs] at hrec
        simp at hrec
      · have hctf : check_can_trade risk spread true = false := by
          cases hcc : check_can_trade risk spread true
          · rfl
          · exact absurd hcc hct
        simp only [handle_entry, hctf] at hrec
        rw [if_neg hs] at hrec
        simp at hrec
        subst hrec
        constructor <;> simp only <;> split_ifs <;> simp
  · intro hs
    simp only [handle_entry]
    rw [if_pos hs]
  · intro hs hct
    simp only [handle_entry, hct, hlen]
    rw [if_neg (not_lt.mpr hs)]
    simp

/-- Witness for the amended C7 at score 0.5, spread 0.0001, with the risk
    check passing. -/
theorem zero_sigma_entry_amended_witness :
    (handle_entry (1 / 2) 0 (1 / 10000) 100 10000 initRisk initPaper).raised = true ∧
    (handle_entry (1 / 2) 0 (1 / 10000) 100 10000 initRisk initPaper).records = [] :=
  (zero_sigma_entry_amended (1 / 2) (1 / 10000) 100 10000 initRisk initPaper).2.2
    (by have h : |(1 / 2 : ℝ)| = 1 / 2 := abs_of_pos (by norm_num)
        rw [h]
        norm_num)
    (by norm_num [check_can_trade, initRisk, MAX_CONSECUTIVE_LOSSES, MAX_SPREAD_THRESHOLD])

/-- C5: the three exit conditions are evaluated in the order signal reversal,
    volatility stop, time stop, and each triggering condition overwrites the
    reason of an earlier one, so the emitted record carries the reason of the
    last triggering condition in that order (the emitted record list is
    characterized by testing the time stop first, then the volatility stop,
    then the signal reversal). -/
theorem exit_reason_priority (pos : PositionInfo) (score volatility mid_price spread : ℝ)
    (has_entry_time : Bool) (duration_min : ℝ)
    (risk : RiskEngineState) (exec : PaperState) :
    (handle_position pos score volatility mid_price spread has_entry_time duration_min
        risk exec).1 =
      (if has_entry_time = true ∧ duration_min > MAX_HOLD_DURATION_CANDLES ∧
            (if pos.side = "long" then (mid_price - pos.entryPrice) / pos.entryPrice
             else (pos.entryPrice - mid_price) / pos.entryPrice) ≤ 0 then
         [⟨"TRADE_EXECUTED", "EXIT_TIME_STOP"⟩]
       else if (pos.side = "long" ∧
                  mid_price < get_stop_loss_price pos.entryPrice 1 volatility) ∨
               (pos.side = "short" ∧
                  mid_price > get_stop_loss_price pos.entryPrice (-1) volatility) then
         [⟨"TRADE_EXECUTED", "EXIT_VOLATILITY_STOP"⟩]
       else if (pos.side = "long" ∧ score < -0.1) ∨
               (pos.side = "short" ∧ score > 0.1) then
         [⟨"TRADE_EXECUTED", "EXIT_SIGNAL_REVERSAL"⟩]
       else []) := by
  by_cases hside : pos.side = "long"
  · by_cases hc1 : score < -0.1 <;>
      by_cases hc2 : mid_price < get_stop_loss_price pos.entryPrice 1 volatility <;>
        by_cases hc3 : has_entry_time = true ∧ duration_min > MAX_HOLD_DURATION_CANDLES ∧
          (mid_price - pos.entryPrice) / pos.entryPrice ≤ 0 <;>
          simp [handle_position, hside, hc1, hc2, hc3]
  · by_cases hside2 : pos.side = "short"
    · by_cases hc1 : score > 0.1 <;>
        by_cases hc2 : mid_price > get_stop_loss_price pos.entryPrice (-1) volatility <;>
          by_cases hc3 : has_entry_time = true ∧ duration_min > MAX_HOLD_DURATION_CANDLES ∧
            (pos.entryPrice - mid_price) / pos.entryPrice ≤ 0 <;>
            simp [handle_position, hside, hside2, hc1, hc2, hc3]
    · by_cases hc3 : has_entry_time = true ∧ duration_min > MAX_HOLD_DURATION_CANDLES ∧
        (pos.entryPrice - mid_price) / pos.entryPrice ≤ 0 <;>
        simp [handle_position, hside, hside2, hc3]

/-- C8: opening a position of quantity q at fill price F1 and closing it at
    fill price F2 changes the paper engine equity by exactly (F2 - F1) * q for
    a long and (F1 - F2) * q for a short, and updating the risk state with
    that delta (is_loss passed as the sign test, as the bot does) increments
    consecutive_losses when the delta is negative and resets it to 0
    otherwise. -/
theorem round_trip_equity_and_streak (s : PaperState) (rs : RiskEngineState)
    (q F1 F2 : ℝ) (hq : 0 < q) (h1 : 0 < F1) (h2 : 0 < F2)
    (hflat : s.position = none) :
    (place_limit_order (place_limit_order s "long" q F1).2 "sell" q F2).2.equity
      = s.equity + (F2 - F1) * q ∧
    (place_limit_order (place_limit_order s "short" q F1).2 "buy" q F2).2.equity
      = s.equity + (F1 - F2) * q ∧
    (∀ d : ℝ, (update_pnl_state rs d (if d < 0 then true else false)).consecutive_losses
      = if d < 0 then rs.consecutive_losses + 1 else 0) := by
  refine ⟨?_, ?_, ?_⟩
  · simp [place_limit_order, hflat]
    ring
  · simp [place_limit_order, hflat]
    ring
  · intro d
    by_cases hd : d < 0 <;> simp [update_pnl_state, hd]

/-- Witness for C8: round trip with quantity 1 opened at 100 and closed at
    110, starting from the initial paper state. -/
theorem round_trip_equity_and_streak_witness :
    (place_limit_order (place_limit_order initPaper "long" 1 100).2 "sell" 1 110).2.equity
      = initPaper.equity + (110 - 100) * 1 ∧
    (place_limit_order (place_limit_order initPaper "short" 1 100).2 "buy" 1 110).2.equity
      = initPaper.equity + (100 - 110) * 1 ∧
    (∀ d : ℝ, (update_pnl_state initRisk d
        (if d < 0 then true else false)).consecutive_losses
      = if d < 0 then initRisk.consecutive_losses + 1 else 0) :=
  round_trip_equity_and_streak initPaper initRisk 1 100 110
    (by norm_num) (by norm_num) (by norm_num) rfl
